import Mathlib

/-!
# Verification of the `CacheManager` expiring key/value cache

Shallow embedding of the `CacheManager` class
(`src/server/middleware/errorHandler.js`) of the
Disaster-Response-Coordination-Platform repository, backed by the
`cache` table of
`src/supabase/migrations/20250620062538_empty_spring.sql`
(`key text PRIMARY KEY, value jsonb NOT NULL, expires_at timestamptz NOT NULL`).

The cache is agnostic to its payloads (the source stores arbitrary JSON
and never inspects it), so values are modelled as opaque strings.
Timestamps are milliseconds-since-epoch integers, mirroring
`Date.now()` / `new Date(ms)` arithmetic in the source; the TTL is the
`ttlMinutes` number passed by the caller (an `Int`, since JavaScript
places no sign restriction on it and the source performs none).

Storage-layer failures (a returned `error`, a thrown exception, a row
that fails to decode) are modelled by explicit failure flags on each
operation: the flag being `true` plays the part of the `error` branch
or the `catch` branch of the source.  The embedded operations are total
functions returning `Option`/`Bool` results paired with the updated
store, which encodes the source contract that `get`/`set`/`delete`
never propagate a thrown error to the caller.
-/

namespace DisasterCache

/-- Cached payloads: arbitrary JSON in the source (`value jsonb`), never
inspected by the cache, hence modelled as an opaque string. -/
abbrev Value := String

/-- One row of the `cache` table: `value jsonb NOT NULL`,
`expires_at timestamptz NOT NULL` (held as milliseconds since epoch). -/
structure Entry where
  value : Value
  expires_at : Int
deriving DecidableEq, Repr

/-- The `cache` table, as an association list from `key` to its row.
The `key text PRIMARY KEY` constraint means at most one row per key;
`Store.upsert` maintains that shape. -/
abbrev Store := List (String × Entry)

/-- Lookup of the row for `key`:
`supabase.from('cache').select('value, expires_at').eq('key', key).single()`. -/
def Store.find : Store → String → Option Entry
  | [], _ => none
  | (k, e) :: s, key => if k = key then some e else Store.find s key

/-- Removal of every row for `key`:
`supabase.from('cache').delete().eq('key', key)`. -/
def Store.eraseKey (s : Store) (key : String) : Store :=
  s.filter (fun p => p.1 != key)

/-- The single-row upsert `supabase.from('cache').upsert({key, value,
expires_at})`: under the `key` primary-key constraint it replaces any
existing row for `key` with the new one. -/
def Store.upsert (s : Store) (key : String) (e : Entry) : Store :=
  (key, e) :: Store.eraseKey s key

/-- Number of rows stored under `key` (the primary key makes this 0 or 1). -/
def Store.countKey (s : Store) (key : String) : Nat :=
  (s.filter (fun p => p.1 == key)).length

namespace CacheManager

/-- `CacheManager.delete(key)`: deletes the rows for `key`; returns
`true` on success and, if the storage call reports an error (which the
source re-throws into its own `catch`), returns `false` leaving the
store unchanged.  `deleteFails` models that storage-layer failure. -/
def delete (deleteFails : Bool) (s : Store) (key : String) : Bool × Store :=
  if deleteFails then (false, s) else (true, Store.eraseKey s key)

/-- `CacheManager.get(key)` at current time `now`.  `selectFails` models
the select reporting an error or throwing (both end in `return null`
with the store untouched); `deleteFails` models the embedded eviction
delete failing.  Mirrors the source: on a found row, if
`new Date(data.expires_at) < new Date()` then `await this.delete(key)`
and `return null`, else `return data.value`. -/
def get (now : Int) (selectFails deleteFails : Bool) (s : Store) (key : String) :
    Option Value × Store :=
  if selectFails then (none, s)
  else
    match Store.find s key with
    | none => (none, s)
    | some entry =>
      if entry.expires_at < now then
        (none, (delete deleteFails s key).2)
      else
        (some entry.value, s)

/-- `CacheManager.set(key, value, ttlMinutes)` with the TTL argument
supplied, at current time `now`.  Computes
`expiresAt = Date.now() + ttlMinutes * 60 * 1000` and upserts
`{key, value, expires_at}`; `upsertFails` models the storage call
reporting an error, which the source turns into `return false` with no
row written.  The source performs no validation of `key` or
`ttlMinutes`. -/
def set (now : Int) (upsertFails : Bool) (s : Store) (key : String)
    (value : Value) (ttlMinutes : Int) : Bool × Store :=
  let expiresAt := now + ttlMinutes * 60 * 1000
  if upsertFails then (false, s)
  else (true, Store.upsert s key ⟨value, expiresAt⟩)

/-- The default of the source signature
`static async set(key, value, ttlMinutes = 60)`: the TTL used when a
caller omits the third argument. -/
def defaultTTLMinutes : Int := 60

/-- `CacheManager.set(key, value)` called without a TTL argument: the
JavaScript default parameter substitutes `ttlMinutes = 60`. -/
def setOmittingTTL (now : Int) (upsertFails : Bool) (s : Store) (key : String)
    (value : Value) : Bool × Store :=
  set now upsertFails s key value defaultTTLMinutes

end CacheManager

/-! ## Store lemmas -/

theorem Store.find_eraseKey_self (s : Store) (key : String) :
    Store.find (Store.eraseKey s key) key = none := by
  induction s with
  | nil => rfl
  | cons p s ih =>
    by_cases h : p.1 = key
    · simpa [Store.eraseKey, List.filter, h] using ih
    · simpa [Store.eraseKey, Store.find, h] using ih

theorem Store.find_upsert_self (s : Store) (key : String) (e : Entry) :
    Store.find (Store.upsert s key e) key = some e := by
  simp [Store.upsert, Store.find]

theorem Store.eraseKey_eraseKey (s : Store) (key : String) :
    Store.eraseKey (Store.eraseKey s key) key = Store.eraseKey s key := by
  simp [Store.eraseKey, List.filter_filter]

theorem Store.upsert_upsert_self (s : Store) (key : String) (e : Entry) :
    Store.upsert (Store.upsert s key e) key e = Store.upsert s key e := by
  simp [Store.upsert, Store.eraseKey, List.filter_filter]

theorem Store.countKey_eraseKey (s : Store) (key : String) :
    Store.countKey (Store.eraseKey s key) key = 0 := by
  simp [Store.countKey, Store.eraseKey, List.filter_filter, bne]

theorem Store.countKey_upsert (s : Store) (key : String) (e : Entry) :
    Store.countKey (Store.upsert s key e) key = 1 := by
  simp [Store.countKey, Store.upsert, Store.eraseKey, List.filter_cons,
    List.filter_filter, bne]

/-! ## Claim theorems -/

/-- C1: the claim says `set` with an empty key or non-positive TTL is
rejected synchronously with an invalid-argument failure and no entry is
created.  The source `CacheManager.set` performs no argument
validation: evaluating the code at the failing input `set("", "v", 60)`
(and at `set("k", "v", 0)`) on working storage shows the call succeeds
and a cache entry for key `""` is created, contradicting the claim. -/
theorem C1_set_accepts_invalid_arguments_eval :
    (CacheManager.set 0 false [] "" "v" 60).1 = true ∧
    Store.find (CacheManager.set 0 false [] "" "v" 60).2 "" =
      some ⟨"v", 3600000⟩ ∧
    (CacheManager.set 0 false [] "k" "v" 0).1 = true ∧
    Store.find (CacheManager.set 0 false [] "k" "v" 0).2 "k" =
      some ⟨"v", 0⟩ := by
  decide

/-- C2: `get` never serves an entry whose `expires_at` is strictly
before the current time: for any stored entry, the returned value is
`none` when the entry is expired (for any outcome `df` of the eviction
delete, so in particular even when the delete fails) and the stored
value unchanged otherwise; moreover when the entry is expired and the
eviction delete succeeds, the entry is removed as a side effect. -/
theorem C2_get_never_serves_expired (now : Int) (df : Bool) (s : Store)
    (key : String) (e : Entry) (hfind : Store.find s key = some e) :
    (CacheManager.get now false df s key).1 =
      (if e.expires_at < now then none else some e.value) ∧
    (e.expires_at < now →
      Store.find (CacheManager.get now false false s key).2 key = none) := by
  constructor
  · by_cases hexp : e.expires_at < now
    · cases df <;> simp [CacheManager.get, hfind, hexp, CacheManager.delete]
    · simp [CacheManager.get, hfind, hexp]
  · intro hexp
    simp [CacheManager.get, hfind, hexp, CacheManager.delete,
      Store.find_eraseKey_self]

/-- C2 witness: a concrete expired entry (`expires_at = 10`, read at
`now = 20`, with the eviction delete failing, `df = true`) instantiates
the theorem. -/
theorem C2_get_never_serves_expired_witness :
    Store.find [("k", Entry.mk "v" 10)] "k" = some (Entry.mk "v" 10) ∧
    ((CacheManager.get 20 false true [("k", Entry.mk "v" 10)] "k").1 =
        (if (Entry.mk "v" 10).expires_at < 20 then none
         else some (Entry.mk "v" 10).value) ∧
      ((Entry.mk "v" 10).expires_at < 20 →
        Store.find (CacheManager.get 20 false false
          [("k", Entry.mk "v" 10)] "k").2 "k" = none)) :=
  ⟨by decide,
   C2_get_never_serves_expired 20 true [("k", Entry.mk "v" 10)] "k"
     (Entry.mk "v" 10) (by decide)⟩

/-- C3 counterexample: the claim says the cache never hardcodes a
default TTL (TTL always an explicit parameter).  The source signature
is `static async set(key, value, ttlMinutes = 60)`: a `set` call that
omits the TTL argument succeeds and stores a 60-minute expiry that no
caller passed — a hardcoded hidden default of 60 minutes. -/
theorem C3_hidden_default_ttl_counterexample :
    CacheManager.defaultTTLMinutes = 60 ∧
    CacheManager.setOmittingTTL 0 false [] "k" "v" =
      (true, [("k", Entry.mk "v" 3600000)]) := by
  decide

/-- C3 amended: the cache accepts an arbitrary caller-supplied TTL on
every `set` call (any integer TTL is accepted and stored as
`now + ttl·60000` when the upsert succeeds); however the `set`
signature carries a hardcoded default of 60 minutes, used exactly when
the caller omits the TTL argument. -/
theorem C3_accepts_arbitrary_ttl_with_default (now ttl : Int) (s : Store)
    (key : String) (v : Value) :
    (CacheManager.set now false s key v ttl).1 = true ∧
    Store.find (CacheManager.set now false s key v ttl).2 key =
      some ⟨v, now + ttl * 60 * 1000⟩ ∧
    CacheManager.setOmittingTTL now false s key v =
      CacheManager.set now false s key v 60 := by
  refine ⟨rfl, ?_, rfl⟩
  simp [CacheManager.set, Store.find_upsert_self]

/-- C9: `set` performs no argument validation — for any key (including
`""`) and any `ttl ≤ 0`, `set` succeeds whenever the storage upsert
succeeds, storing an entry whose `expires_at = now + ttl·60000` is at
or before the write time; that entry overwrites any previous one, yet
every subsequent `get` at a strictly later time returns `none` (for
every select/delete outcome), preserving the never-serve-expired
invariant. -/
theorem C9_no_validation_never_serves (now tget ttl : Int) (sf df : Bool)
    (s : Store) (key : String) (v : Value)
    (httl : ttl ≤ 0) (hlater : now < tget) :
    (CacheManager.set now false s key v ttl).1 = true ∧
    Store.find (CacheManager.set now false s key v ttl).2 key =
      some ⟨v, now + ttl * 60 * 1000⟩ ∧
    now + ttl * 60 * 1000 ≤ now ∧
    (CacheManager.get tget sf df
      (CacheManager.set now false s key v ttl).2 key).1 = none := by
  have hfind : Store.find (CacheManager.set now false s key v ttl).2 key =
      some ⟨v, now + ttl * 60 * 1000⟩ := by
    simp [CacheManager.set, Store.find_upsert_self]
  have hpast : now + ttl * 60 * 1000 ≤ now := by omega
  refine ⟨rfl, hfind, hpast, ?_⟩
  have hexp : now + ttl * 60 * 1000 < tget := by omega
  cases sf with
  | true => rfl
  | false =>
    cases df <;> simp [CacheManager.get, hfind, hexp, CacheManager.delete]

/-- C9 witness: the empty key with `ttl = 0`, written at time 0 and
read at time 1, instantiates the theorem. -/
theorem C9_no_validation_never_serves_witness :
    (0 : Int) ≤ 0 ∧ (0 : Int) < 1 ∧
    ((CacheManager.set 0 false [] "" "v" 0).1 = true ∧
      Store.find (CacheManager.set 0 false [] "" "v" 0).2 "" =
        some ⟨"v", 0 + 0 * 60 * 1000⟩ ∧
      (0 : Int) + 0 * 60 * 1000 ≤ 0 ∧
      (CacheManager.get 1 false false
        (CacheManager.set 0 false [] "" "v" 0).2 "").1 = none) :=
  ⟨by decide, by decide,
   C9_no_validation_never_serves 0 1 0 false false [] "" "v"
     (by decide) (by decide)⟩

/-- C10: the lazy eviction inside `get` is synchronous — the source
awaits `this.delete(key)` before `return null`, so when the delete
succeeds, at the moment `get` returns `none` the store is exactly the
input store with the key removed; in particular no entry for the key
remains. -/
theorem C10_eviction_is_synchronous (now : Int) (s : Store) (key : String)
    (e : Entry) (hfind : Store.find s key = some e)
    (hexp : e.expires_at < now) :
    (CacheManager.get now false false s key).1 = none ∧
    (CacheManager.get now false false s key).2 = Store.eraseKey s key ∧
    Store.find (CacheManager.get now false false s key).2 key = none := by
  simp [CacheManager.get, hfind, hexp, CacheManager.delete,
    Store.find_eraseKey_self]

/-- C10 witness: a concrete expired entry instantiates the theorem. -/
theorem C10_eviction_is_synchronous_witness :
    Store.find [("k", Entry.mk "v" 10)] "k" = some (Entry.mk "v" 10) ∧
    (Entry.mk "v" 10).expires_at < 20 ∧
    ((CacheManager.get 20 false false [("k", Entry.mk "v" 10)] "k").1 = none ∧
      (CacheManager.get 20 false false [("k", Entry.mk "v" 10)] "k").2 =
        Store.eraseKey [("k", Entry.mk "v" 10)] "k" ∧
      Store.find (CacheManager.get 20 false false
        [("k", Entry.mk "v" 10)] "k").2 "k" = none) :=
  ⟨by decide, by decide,
   C10_eviction_is_synchronous 20 [("k", Entry.mk "v" 10)] "k"
     (Entry.mk "v" 10) (by decide) (by decide)⟩

/-- C4: for every non-empty key, value, and `ttl > 0`, immediately
after a successful `set(key, value, ttl)` — i.e. at any read time not
past the computed expiry `tset + ttl·60000`, with no intervening
writes — `get(key)` returns the value unchanged. -/
theorem C4_get_after_set (tset tget ttl : Int) (s : Store) (key : String)
    (v : Value) (hk : key ≠ "") (ht : 0 < ttl)
    (hbefore : tget ≤ tset + ttl * 60 * 1000) :
    (CacheManager.get tget false false
      (CacheManager.set tset false s key v ttl).2 key).1 = some v := by
  have hfind : Store.find (CacheManager.set tset false s key v ttl).2 key =
      some ⟨v, tset + ttl * 60 * 1000⟩ := by
    simp [CacheManager.set, Store.find_upsert_self]
  simp [CacheManager.get, hfind, not_lt.mpr hbefore]

/-- C4 witness: `set "k" "v"` with `ttl = 60` at time 0, read at
time 1000, instantiates the theorem. -/
theorem C4_get_after_set_witness :
    "k" ≠ "" ∧ (0 : Int) < 60 ∧ (1000 : Int) ≤ 0 + 60 * 60 * 1000 ∧
    (CacheManager.get 1000 false false
      (CacheManager.set 0 false [] "k" "v" 60).2 "k").1 = some "v" :=
  ⟨by decide, by decide, by decide,
   C4_get_after_set 0 1000 60 [] "k" "v" (by decide) (by decide) (by decide)⟩

/-- C5: at most one live entry per key — a `set` to an existing key
fully replaces the prior value and expiry (the primary-key upsert
leaves exactly one row for the key), so after `set(k, v1, 60)` followed
by `set(k, v2, 60)`, a `get(k)` before expiry returns `v2`, and never
`v1` when the two values differ. -/
theorem C5_set_is_upsert (t1 t2 tget : Int) (s : Store) (key : String)
    (v1 v2 : Value) (hbefore : tget ≤ t2 + 60 * 60 * 1000) (hne : v1 ≠ v2) :
    Store.countKey (CacheManager.set t2 false
      (CacheManager.set t1 false s key v1 60).2 key v2 60).2 key = 1 ∧
    (CacheManager.get tget false false (CacheManager.set t2 false
      (CacheManager.set t1 false s key v1 60).2 key v2 60).2 key).1 =
      some v2 ∧
    (CacheManager.get tget false false (CacheManager.set t2 false
      (CacheManager.set t1 false s key v1 60).2 key v2 60).2 key).1 ≠
      some v1 := by
  have hfind : Store.find (CacheManager.set t2 false
      (CacheManager.set t1 false s key v1 60).2 key v2 60).2 key =
      some ⟨v2, t2 + 60 * 60 * 1000⟩ := by
    simp [CacheManager.set, Store.find_upsert_self]
  have hget : (CacheManager.get tget false false (CacheManager.set t2 false
      (CacheManager.set t1 false s key v1 60).2 key v2 60).2 key).1 =
      some v2 := by
    have hnot : ¬ (t2 + 3600000 < tget) := by omega
    simp [CacheManager.get, hfind, hnot]
  refine ⟨?_, hget, ?_⟩
  · simp [CacheManager.set, Store.countKey_upsert]
  · rw [hget]
    simp [hne.symm]

/-- C5 witness: the spec scenario `set("k","v1",60); set("k","v2",60);
get("k")` at concrete times instantiates the theorem. -/
theorem C5_set_is_upsert_witness :
    (5 : Int) ≤ 1 + 60 * 60 * 1000 ∧ "v1" ≠ "v2" ∧
    (Store.countKey (CacheManager.set 1 false
      (CacheManager.set 0 false [] "k" "v1" 60).2 "k" "v2" 60).2 "k" = 1 ∧
    (CacheManager.get 5 false false (CacheManager.set 1 false
      (CacheManager.set 0 false [] "k" "v1" 60).2 "k" "v2" 60).2 "k").1 =
      some "v2" ∧
    (CacheManager.get 5 false false (CacheManager.set 1 false
      (CacheManager.set 0 false [] "k" "v1" 60).2 "k" "v2" 60).2 "k").1 ≠
      some "v1") :=
  ⟨by decide, by decide,
   C5_set_is_upsert 0 1 5 [] "k" "v1" "v2" (by decide) (by decide)⟩

/-- C6: expiry boundary — after `set(k, v, ttl = 1 minute)` at time
`t`, the stored expiry is exactly `t + 60000` (the write time plus the
TTL in minutes converted to milliseconds), a `get` performed
immediately (at time `t`) returns `v`, and a `get` performed after 61
seconds of elapsed time (at `t + 61000`) returns `none`. -/
theorem C6_expiry_boundary (t : Int) (s : Store) (key : String) (v : Value) :
    Store.find (CacheManager.set t false s key v 1).2 key =
      some ⟨v, t + 60000⟩ ∧
    (CacheManager.get t false false
      (CacheManager.set t false s key v 1).2 key).1 = some v ∧
    (CacheManager.get (t + 61000) false false
      (CacheManager.set t false s key v 1).2 key).1 = none := by
  have hfind : Store.find (CacheManager.set t false s key v 1).2 key =
      some ⟨v, t + 1 * 60 * 1000⟩ := by
    simp [CacheManager.set, Store.find_upsert_self]
  have he : t + 1 * 60 * 1000 = t + 60000 := by omega
  rw [he] at hfind
  refine ⟨hfind, ?_, ?_⟩
  · have hnot : ¬ (t + 60000 < t) := by omega
    simp [CacheManager.get, hfind, hnot]
  · have hlt : t + 60000 < t + 61000 := by omega
    simp [CacheManager.get, hfind, hlt, CacheManager.delete]

/-- C7: every storage-layer failure is absorbed at the cache boundary —
when the select fails (error, thrown connectivity failure, or a
malformed stored value) `get` returns `none` with the store untouched,
and when the storage call fails `set` and `delete` return `false`; the
embedded operations are total functions, which is the shape of the
source guarantee that none of the three ever propagates a thrown error
to the caller. -/
theorem C7_failures_absorbed (now : Int) (df : Bool) (s : Store)
    (key : String) (v : Value) (ttl : Int) :
    (CacheManager.get now true df s key).1 = none ∧
    (CacheManager.get now true df s key).2 = s ∧
    CacheManager.set now true s key v ttl = (false, s) ∧
    CacheManager.delete true s key = (false, s) :=
  ⟨rfl, rfl, rfl, rfl⟩

/-- C8: `set` is idempotent under retry — re-running
`set(key, value, ttl)` with identical arguments leaves the store in
exactly the state one call produces, the second call also succeeds, and
a `get` before expiry returns the value after either call. -/
theorem C8_set_idempotent (now tget : Int) (s : Store) (key : String)
    (v : Value) (ttl : Int) (hbefore : tget ≤ now + ttl * 60 * 1000) :
    (CacheManager.set now false
      (CacheManager.set now false s key v ttl).2 key v ttl).2 =
      (CacheManager.set now false s key v ttl).2 ∧
    (CacheManager.set now false
      (CacheManager.set now false s key v ttl).2 key v ttl).1 = true ∧
    (CacheManager.get tget false false
      (CacheManager.set now false s key v ttl).2 key).1 = some v ∧
    (CacheManager.get tget false false (CacheManager.set now false
      (CacheManager.set now false s key v ttl).2 key v ttl).2 key).1 =
      some v := by
  have hstate : (CacheManager.set now false
      (CacheManager.set now false s key v ttl).2 key v ttl).2 =
      (CacheManager.set now false s key v ttl).2 := by
    simp [CacheManager.set, Store.upsert_upsert_self]
  have hfind : Store.find (CacheManager.set now false s key v ttl).2 key =
      some ⟨v, now + ttl * 60 * 1000⟩ := by
    simp [CacheManager.set, Store.find_upsert_self]
  have hget : (CacheManager.get tget false false
      (CacheManager.set now false s key v ttl).2 key).1 = some v := by
    simp [CacheManager.get, hfind, not_lt.mpr hbefore]
  refine ⟨hstate, rfl, hget, ?_⟩
  rw [hstate]
  exact hget

/-- C8 witness: a concrete retried `set` instantiates the theorem. -/
theorem C8_set_idempotent_witness :
    (5 : Int) ≤ 0 + 60 * 60 * 1000 ∧
    ((CacheManager.set 0 false
      (CacheManager.set 0 false [] "k" "v" 60).2 "k" "v" 60).2 =
      (CacheManager.set 0 false [] "k" "v" 60).2 ∧
    (CacheManager.set 0 false
      (CacheManager.set 0 false [] "k" "v" 60).2 "k" "v" 60).1 = true ∧
    (CacheManager.get 5 false false
      (CacheManager.set 0 false [] "k" "v" 60).2 "k").1 = some "v" ∧
    (CacheManager.get 5 false false (CacheManager.set 0 false
      (CacheManager.set 0 false [] "k" "v" 60).2 "k" "v" 60).2 "k").1 =
      some "v") :=
  ⟨by decide, C8_set_idempotent 0 5 [] "k" "v" 60 (by decide)⟩

end DisasterCache
